import Mathlib

/-!
Verification development for the log-analyzer parsing engine
(`utils/parser.py`): a shallow embedding of the dual-format line
tokenizer (`parse_log_file`), the timestamp recovery
(`try_parse_datetime`) and the ordered rule-based event classifier
(`extract_alarm_events`), together with theorems about the properties
the specification states for them.

Strings are modelled as `List Char`.  Python regular-expression
searches are modelled by executable scanning functions: each compiled
pattern of the source becomes a deterministic matcher (the patterns in
the source are all deterministic under leftmost/greedy semantics,
because every quantified class is disjoint from the token that
follows it).  Character classes are modelled over ASCII, which is the
alphabet of all patterns in the source.  Exceptions of the underlying
date library are modelled by `Option` (`none` = the call raised).
-/

/-! ### Character classes (ASCII models of Python `\s`, `\d`, `\w`, hex) -/

/-- ASCII model of Python `\s`: space, tab, newline, carriage return,
vertical tab, form feed. -/
def isPyWS (c : Char) : Bool :=
  c == ' ' || c == '\t' || c == '\n' || c == '\r' || c == '\x0b' || c == '\x0c'

/-- ASCII model of Python `\d`. -/
def isDigitC (c : Char) : Bool := '0' ≤ c && c ≤ '9'

/-- The class `[0-9A-Fa-f]` of `re_alarm_raised` / `re_alarm_terminated`. -/
def isHexC (c : Char) : Bool :=
  isDigitC c || ('a' ≤ c && c ≤ 'f') || ('A' ≤ c && c ≤ 'F')

/-- ASCII model of Python `\w` (used by the `\b` boundaries of
`re_start_marker`). -/
def isWordC (c : Char) : Bool :=
  isDigitC c || ('a' ≤ c && c ≤ 'z') || ('A' ≤ c && c ≤ 'Z') || c == '_'

/-- The class `[0-9A-Za-z\.\_:-]` of `re_version_info`. -/
def isVerChar (c : Char) : Bool :=
  isDigitC c || ('a' ≤ c && c ≤ 'z') || ('A' ≤ c && c ≤ 'Z') ||
    c == '.' || c == '_' || c == ':' || c == '-'

/-- ASCII lower-casing, the case folding used by `re.IGNORECASE` on the
ASCII patterns of the source. -/
def lowerChar (c : Char) : Char :=
  if 'A' ≤ c ∧ c ≤ 'Z' then Char.ofNat (c.toNat + 32) else c

/-! ### Scanning combinators (Python `re.search` = leftmost match) -/

/-- Case-insensitive "pattern matches here": the literal `pat` matches a
prefix of `l` up to ASCII case. -/
def ciHead : List Char → List Char → Bool
  | [], _ => true
  | _ :: _, [] => false
  | p :: ps, c :: cs => (lowerChar p == lowerChar c) && ciHead ps cs

/-- `re.search` of a fixed pattern: try the at-position matcher `f` at
every position of the string, leftmost hit wins. -/
def searchO {α : Type} (f : List Char → Option α) : List Char → Option α
  | [] => f []
  | c :: cs =>
    match f (c :: cs) with
    | some r => some r
    | none => searchO f cs

/-- Case-sensitive substring test (Python `in` operator on `str`). -/
def hasSub (pat : List Char) : List Char → Bool
  | [] => pat.isEmpty
  | c :: cs => pat.isPrefixOf (c :: cs) || hasSub pat cs

/-- Case-insensitive substring search (a bare literal pattern compiled
with `re.IGNORECASE`). -/
def ciContains (pat : List Char) : List Char → Bool
  | [] => pat.isEmpty
  | c :: cs => ciHead pat (c :: cs) || ciContains pat cs

/-- Case-insensitive literal followed by a continuation matcher. -/
def litThenO {α : Type} (pat : List Char) (k : List Char → Option α)
    (l : List Char) : Option α :=
  if ciHead pat l then k (List.drop pat.length l) else none

/-! ### The McScript sub-patterns of the classifier -/

/-- Continuation of `re_install_run`'s `.*`: find the second literal
further right with no newline strictly in between (`.` does not match
`\n`). -/
def ciFindNoNl (pat : List Char) : List Char → Bool
  | [] => pat.isEmpty
  | c :: cs => ciHead pat (c :: cs) || (!(c == '\n') && ciFindNoNl pat cs)

/-- `re_install_run = RunScript.*ThreatPreventionInstall` (IGNORECASE),
as a search. -/
def installRunMatch : List Char → Bool
  | [] => false
  | c :: cs =>
    (ciHead "RunScript".data (c :: cs) &&
      ciFindNoNl "ThreatPreventionInstall".data
        (List.drop "RunScript".data.length (c :: cs))) ||
    installRunMatch cs

/-- Left word-boundary test for `\b` before a word character. -/
def wordBoundL (prev : Option Char) : Bool :=
  match prev with
  | none => true
  | some p => !isWordC p

/-- Right word-boundary test for `\b` after a word character. -/
def wordBoundR (l : List Char) : Bool :=
  match l with
  | [] => true
  | d :: _ => !isWordC d

/-- Scanner for `re_start_marker = \bSTART\b` (IGNORECASE), carrying the
previous character for the left boundary. -/
def startAux (prev : Option Char) : List Char → Bool
  | [] => false
  | c :: cs =>
    (ciHead "START".data (c :: cs) && wordBoundL prev &&
      wordBoundR (List.drop "START".data.length (c :: cs))) ||
    startAux (some c) cs

/-- `re_start_marker.search`. -/
def startMarkerMatch (cs : List Char) : Bool := startAux none cs

/-- `re_key_imported.search`. -/
def keyImportedMatch (cs : List Char) : Bool :=
  ciContains "Key imported successfully".data cs

/-- Continuation of `re_msgbus_connected` after its literal head:
`\s*:\s*Connected`. -/
def msgbusAfterB (l : List Char) : Bool :=
  match l.dropWhile isPyWS with
  | ':' :: r => ciHead "Connected".data (r.dropWhile isPyWS)
  | _ => false

/-- `re_msgbus_connected = msgbus connectvity status\s*:\s*Connected`
(IGNORECASE), as a search. -/
def msgbusMatch : List Char → Bool
  | [] => false
  | c :: cs =>
    (ciHead "msgbus connectvity status".data (c :: cs) &&
      msgbusAfterB (List.drop "msgbus connectvity status".data.length (c :: cs))) ||
    msgbusMatch cs

/-- `re_added_file_watcher.search`. -/
def watcherMatch (cs : List Char) : Bool :=
  ciContains "Added file watcher".data cs

/-- Continuation `\s+(\d+)`: at least one whitespace, then the maximal
digit run is the captured group. -/
def wsDigits (l : List Char) : Option (List Char) :=
  if (l.takeWhile isPyWS).isEmpty then none
  else
    let ds := (l.dropWhile isPyWS).takeWhile isDigitC
    if ds.isEmpty then none else some ds

/-- `re_no_of_products.search`, returning the captured digit group. -/
def productsSearch (cs : List Char) : Option (List Char) :=
  searchO (litThenO "No of products to be installed".data wsDigits) cs

/-- Continuation of `re_version_info` after its literal head:
`\s*:\s*([0-9A-Za-z\.\_:-]+)`. -/
def versionAfter (l : List Char) : Option (List Char) :=
  match l.dropWhile isPyWS with
  | ':' :: r =>
    let g := (r.dropWhile isPyWS).takeWhile isVerChar
    if g.isEmpty then none else some g
  | _ => none

/-- `re_version_info.search`, returning the captured group. -/
def versionSearch (cs : List Char) : Option (List Char) :=
  searchO (litThenO "Got Build Version".data versionAfter) cs

/-- `re_spec_success.search`. -/
def specMatch (cs : List Char) : Bool :=
  ciContains "getting spec file from policy successfully".data cs

/-! ### The TSMC alarm / error patterns of the classifier -/

/-- Continuation of `re_alarm_raised` / `re_alarm_terminated` after the
literal `Alarm`: `\s+([0-9A-Fa-f]{3,4})\s+has\s+been\s+<tail>`.  The
greedy `{3,4}` followed by `\s+` matches exactly when the maximal hex
run has length 3 or 4 (a hex digit is never whitespace, so a shorter
take can never be rescued by backtracking). -/
def alarmAfter (tailLit : List Char) (l : List Char) : Option (List Char) :=
  if (l.takeWhile isPyWS).isEmpty then none
  else
    let r1 := l.dropWhile isPyWS
    let code := r1.takeWhile isHexC
    if code.length = 3 ∨ code.length = 4 then
      let r2 := r1.drop code.length
      if (r2.takeWhile isPyWS).isEmpty then none
      else
        let r3 := r2.dropWhile isPyWS
        if ciHead "has".data r3 then
          let r4 := (r3.drop "has".data.length)
          if (r4.takeWhile isPyWS).isEmpty then none
          else
            let r5 := r4.dropWhile isPyWS
            if ciHead "been".data r5 then
              let r6 := (r5.drop "been".data.length)
              if (r6.takeWhile isPyWS).isEmpty then none
              else if ciHead tailLit (r6.dropWhile isPyWS) then some code
              else none
            else none
        else none
    else none

/-- Search for `Alarm <hex{3,4}> has been <tail>` (IGNORECASE),
returning the captured hex code. -/
def alarmSearch (tailLit : List Char) (cs : List Char) : Option (List Char) :=
  searchO (litThenO "Alarm".data (alarmAfter tailLit)) cs

/-- `re_uncontrolled_restart.search`. -/
def uncontrolledMatch (cs : List Char) : Bool :=
  ciContains "uncontrolled restart".data cs

/-- `re_controlled_restart.search`. -/
def controlledMatch (cs : List Char) : Bool :=
  ciContains "controlled restart".data cs

/-- `re_software_err.search` (`Software error\. System error\s+(\d+)`),
returning the captured digit group. -/
def softwareSearch (cs : List Char) : Option (List Char) :=
  searchO (litThenO "Software error. System error".data wsDigits) cs

/-- Continuation `\s+(\S+)`: whitespace then the maximal non-whitespace
run as the captured group. -/
def wsToken (l : List Char) : Option (List Char) :=
  if (l.takeWhile isPyWS).isEmpty then none
  else
    let tk := (l.dropWhile isPyWS).takeWhile (fun c => !isPyWS c)
    if tk.isEmpty then none else some tk

/-- `re_failed_symbol.search`, returning the captured symbol. -/
def symbolSearch (cs : List Char) : Option (List Char) :=
  searchO (litThenO "Could not find symbol for dereferencing".data wsToken) cs

/-- `re_failed_generic.search` (`Failed to|Could not|Error trace`,
IGNORECASE). -/
def failedGenericMatch (cs : List Char) : Bool :=
  ciContains "Failed to".data cs || ciContains "Could not".data cs ||
    ciContains "Error trace".data cs

/-! ### Datetimes and the date library -/

/-- A parsed timestamp, as produced by `datetime.strptime` /
`dateutil.parser.parse`. -/
structure DateTime where
  year : Nat
  month : Nat
  day : Nat
  hour : Nat
  minute : Nat
  second : Nat
  usec : Nat
deriving DecidableEq

/-- Gregorian leap year, as in Python's `datetime`. -/
def isLeap (y : Nat) : Bool := (y % 4 == 0 && y % 100 != 0) || y % 400 == 0

/-- Days in a month, as validated by Python's `datetime` constructor. -/
def daysInMonth (y m : Nat) : Nat :=
  if m == 2 then (if isLeap y then 29 else 28)
  else if m == 4 || m == 6 || m == 9 || m == 11 then 30
  else 31

/-- The validation performed by Python's `datetime` constructor: any
out-of-range field raises `ValueError` (modelled as `none`). -/
def mkDT (y mo d h mi s us : Nat) : Option DateTime :=
  if 1 ≤ y ∧ y ≤ 9999 ∧ 1 ≤ mo ∧ mo ≤ 12 ∧ 1 ≤ d ∧ d ≤ daysInMonth y mo ∧
      h ≤ 23 ∧ mi ≤ 59 ∧ s ≤ 59 then
    some ⟨y, mo, d, h, mi, s, us⟩
  else none

/-- Decimal value of a digit run. -/
def digitsToNat (l : List Char) : Nat :=
  l.foldl (fun a c => a * 10 + (c.toNat - 48)) 0

/-- `datetime.strptime(date + " " + time_part, "%Y%m%d %H:%M:%S")` on
the strings produced by `re_tsmc`: an 8-digit date and a `HH:MM:SS`
time; `none` models the `ValueError` the source catches. -/
def strptimeD (d8 t : List Char) : Option DateTime :=
  match d8, t with
  | [a, b, c, d, e, f, g2, h2], [u1, u2, ':', v1, v2, ':', w1, w2] =>
    if [a, b, c, d, e, f, g2, h2].all isDigitC &&
        [u1, u2, v1, v2, w1, w2].all isDigitC then
      mkDT (digitsToNat [a, b, c, d]) (digitsToNat [e, f]) (digitsToNat [g2, h2])
        (digitsToNat [u1, u2]) (digitsToNat [v1, v2]) (digitsToNat [w1, w2]) 0
    else none
  | _, _ => none

/-- Microseconds from a fractional-second digit run, truncated to six
digits, as the date library normalises it. -/
def fracUsec (fs : List Char) : Nat :=
  digitsToNat (fs.take 6) * 10 ^ (6 - (fs.take 6).length)

/-- Models `dateutil.parser.parse` on the strings handed to it by the
source: every call site passes a group of `re_mcscript_full` or
`re_iso`, so the shape is exactly `YYYY-MM-DD HH:MM:SS[.fraction]`;
`none` models the exception the source catches. -/
def parseIsoTs (l : List Char) : Option DateTime :=
  match l with
  | y1 :: y2 :: y3 :: y4 :: '-' :: mo1 :: mo2 :: '-' :: d1 :: d2 :: ' ' ::
      h1 :: h2 :: ':' :: mi1 :: mi2 :: ':' :: s1 :: s2 :: rest =>
    if [y1, y2, y3, y4, mo1, mo2, d1, d2, h1, h2, mi1, mi2, s1, s2].all isDigitC then
      match rest with
      | [] =>
        mkDT (digitsToNat [y1, y2, y3, y4]) (digitsToNat [mo1, mo2])
          (digitsToNat [d1, d2]) (digitsToNat [h1, h2]) (digitsToNat [mi1, mi2])
          (digitsToNat [s1, s2]) 0
      | '.' :: fs =>
        if !fs.isEmpty && fs.all isDigitC then
          mkDT (digitsToNat [y1, y2, y3, y4]) (digitsToNat [mo1, mo2])
            (digitsToNat [d1, d2]) (digitsToNat [h1, h2]) (digitsToNat [mi1, mi2])
            (digitsToNat [s1, s2]) (fracUsec fs)
        else none
      | _ => none
    else none
  | _ => none

/-- At-position matcher for `re_tsmc = /\)(\d{8})/(\d{2}:\d{2}:\d{2}(?:\.\d+)?)`:
returns the date and time groups. -/
def tsmcAt (l : List Char) : Option (List Char × List Char) :=
  match l with
  | '/' :: ')' :: rest =>
    let d := rest.take 8
    if d.length = 8 ∧ d.all isDigitC then
      match rest.drop 8 with
      | '/' :: trest => (timeAt trest).map (fun t => (d, t))
      | _ => none
    else none
  | _ => none
where
  /-- `\d{2}:\d{2}:\d{2}(?:\.\d+)?` at a position. -/
  timeAt : List Char → Option (List Char)
  | h1 :: h2 :: ':' :: m1 :: m2 :: ':' :: s1 :: s2 :: rest =>
    if [h1, h2, m1, m2, s1, s2].all isDigitC then
      match rest with
      | '.' :: frest =>
        let fs := frest.takeWhile isDigitC
        if fs.isEmpty then some [h1, h2, ':', m1, m2, ':', s1, s2]
        else some ([h1, h2, ':', m1, m2, ':', s1, s2] ++ '.' :: fs)
      | _ => some [h1, h2, ':', m1, m2, ':', s1, s2]
    else none
  | _ => none

/-- At-position matcher for `re_iso`, returning the matched timestamp
substring (group `ts`). -/
def isoAt (l : List Char) : Option (List Char) :=
  match l with
  | y1 :: y2 :: y3 :: y4 :: '-' :: mo1 :: mo2 :: '-' :: d1 :: d2 :: ' ' :: rest =>
    if [y1, y2, y3, y4, mo1, mo2, d1, d2].all isDigitC then
      (tsmcAt.timeAt rest).map
        (fun t => [y1, y2, y3, y4, '-', mo1, mo2, '-', d1, d2, ' '] ++ t)
    else none
  | _ => none

/-- `try_parse_datetime`: TSMC form first (fractional seconds dropped,
parsed by `strptime`), then the bare ISO form, `none` when both fail;
library exceptions are the `none`s of the two parsers and are never
propagated. -/
def tryParseDT (cs : List Char) : Option DateTime :=
  if cs.isEmpty then none
  else
    match searchO tsmcAt cs with
    | some p =>
      match strptimeD p.1 (p.2.takeWhile (fun c => !(c == '.'))) with
      | some dt => some dt
      | none => isoFallback cs
    | none => isoFallback cs
where
  /-- The `# direct ISO` block of `try_parse_datetime`. -/
  isoFallback (cs : List Char) : Option DateTime :=
    match searchO isoAt cs with
    | some g => parseIsoTs g
    | none => none

/-! ### The tokenizer `parse_log_file` -/

/-- One tokenized record, the dict
`{Timestamp, Level, ThreadID, Component, Message, Raw}`. -/
structure LogRecord where
  timestamp : Option DateTime
  level : Option Char
  threadID : Option String
  component : Option String
  message : String
  raw : String
deriving DecidableEq

/-- The groups of a successful `re_mcscript_full.match`. -/
structure McM where
  tsc : List Char
  lv : Char
  thr : List Char
  comp : List Char
  msg : List Char
deriving DecidableEq

/-- Python `str.strip()` over the ASCII whitespace of the logs. -/
def stripWS (l : List Char) : List Char :=
  ((l.dropWhile isPyWS).reverse.dropWhile isPyWS).reverse

/-- Python `line.rstrip("\n")`. -/
def rstripNl (l : List Char) : List Char :=
  (l.reverse.dropWhile (fun c => c == '\n')).reverse

/-- `re_mcscript_full.match` under leftmost/greedy semantics: every
`\s+`/`\d+`/`\S+` is followed by a token disjoint from its class, so
maximal munch is exact; the final `(?P<msg>.*)$` requires the remainder
to be newline-free.  The `msg` group is returned already `.strip()`ed,
as the source uses it. -/
def mcscriptMatch (l : List Char) : Option McM :=
  match l with
  | y1 :: y2 :: y3 :: y4 :: '-' :: mo1 :: mo2 :: '-' :: d1 :: d2 :: ' ' ::
      h1 :: h2 :: ':' :: mi1 :: mi2 :: ':' :: s1 :: s2 :: rest =>
    if [y1, y2, y3, y4, mo1, mo2, d1, d2, h1, h2, mi1, mi2, s1, s2].all isDigitC then
      if (rest.takeWhile isPyWS).isEmpty then none
      else
        match rest.dropWhile isPyWS with
        | lv :: r2 =>
          if lv == 'I' || lv == 'E' || lv == 'W' || lv == 'F' then
            if (r2.takeWhile isPyWS).isEmpty then none
            else
              match r2.dropWhile isPyWS with
              | '#' :: r3 =>
                let th := r3.takeWhile isDigitC
                if th.isEmpty then none
                else
                  let r4 := r3.drop th.length
                  if (r4.takeWhile isPyWS).isEmpty then none
                  else
                    let r5 := r4.dropWhile isPyWS
                    let cp := r5.takeWhile (fun c => !isPyWS c)
                    if cp.isEmpty then none
                    else
                      let r6 := r5.drop cp.length
                      if (r6.takeWhile isPyWS).isEmpty then none
                      else
                        let ms := r6.dropWhile isPyWS
                        if ms.contains '\n' then none
                        else
                          some ⟨[y1, y2, y3, y4, '-', mo1, mo2, '-', d1, d2, ' ',
                                 h1, h2, ':', mi1, mi2, ':', s1, s2],
                                lv, th, cp, stripWS ms⟩
              | _ => none
          else none
        | [] => none
    else none
  | _ => none

/-- The heuristic Level recovery of the fallback branch of
`parse_log_file` (`/W/`, ` W/`, ` W `, then the `I` and `F` variants). -/
def fallbackLevel (cs : List Char) : Option Char :=
  if hasSub ['/', 'W', '/'] cs || hasSub [' ', 'W', '/'] cs ||
      hasSub [' ', 'W', ' '] cs then some 'W'
  else if hasSub ['/', 'I', '/'] cs || hasSub [' ', 'I', '/'] cs ||
      hasSub [' ', 'I', ' '] cs then some 'I'
  else if hasSub ['/', 'F', '/'] cs || hasSub [' ', 'F', '/'] cs ||
      hasSub [' ', 'F', ' '] cs then some 'F'
  else none

/-- At-position matcher for the component pattern `//([^/]+)/`. -/
def compAt : List Char → Option (List Char)
  | '/' :: '/' :: rest =>
    let run := rest.takeWhile (fun c => !(c == '/'))
    if run.isEmpty then none
    else
      match rest.drop run.length with
      | '/' :: _ => some run
      | _ => none
  | _ => none

/-- The per-line body of `parse_log_file`, after `line.rstrip("\n")`. -/
def parseStripped (cs : List Char) : LogRecord :=
  match mcscriptMatch cs with
  | some m =>
    { timestamp :=
        match parseIsoTs m.tsc with
        | some dt => some dt
        | none => tryParseDT cs,
      level := some m.lv,
      threadID := some (String.mk m.thr),
      component := some (String.mk m.comp),
      message := String.mk m.msg,
      raw := String.mk cs }
  | none =>
    { timestamp := tryParseDT cs,
      level := fallbackLevel cs,
      threadID := none,
      component := (searchO compAt cs).map (fun c => String.mk c),
      message := String.mk (stripWS cs),
      raw := String.mk cs }

/-- One iteration of `parse_log_file`'s loop. -/
def parseLine (s : String) : LogRecord :=
  parseStripped (rstripNl s.data)

/-- `parse_log_file`: one record per input line, in order. -/
def parse_log_file (lines : List String) : List LogRecord :=
  lines.map parseLine

/-! ### The classifier `extract_alarm_events` -/

/-- One consolidated event record. -/
structure Event where
  deviceName : String
  alarmName : String
  severity : String
  status : String
  raiseDate : Option DateTime
  terminatedDate : Option DateTime
  message : String
deriving DecidableEq

/-- `msg = (row.get("Message") or "")[:2000]`. -/
def truncMsg (row : LogRecord) : List Char :=
  row.message.data.take 2000

/-- `ts = row.get("Timestamp") or try_parse_datetime(row.get("Raw", ""))`
(a `datetime` is always truthy, `None` is falsy). -/
def recoveredTs (row : LogRecord) : Option DateTime :=
  match row.timestamp with
  | some t => some t
  | none => tryParseDT row.raw.data

/-- The per-row rule chain of `extract_alarm_events`: the ordered
`if ... continue` cascade, first match wins, no match emits nothing. -/
def classifyRow (row : LogRecord) : Option Event :=
  if installRunMatch (truncMsg row) then
    some ⟨"Endpoint", "INSTALL_RUN", "Info", "Started",
          recoveredTs row, recoveredTs row, String.mk (truncMsg row)⟩
  else if startMarkerMatch (truncMsg row) && hasSub "START".data (truncMsg row) then
    some ⟨"Endpoint", "SCRIPT_START", "Info", "Started",
          recoveredTs row, recoveredTs row, String.mk (truncMsg row)⟩
  else if keyImportedMatch (truncMsg row) then
    some ⟨"Endpoint", "KEY_IMPORTED", "Info", "OK",
          recoveredTs row, recoveredTs row, String.mk (truncMsg row)⟩
  else if msgbusMatch (truncMsg row) then
    some ⟨"Endpoint", "MSGBUS_CONNECTED", "Info", "OK",
          recoveredTs row, recoveredTs row, String.mk (truncMsg row)⟩
  else if watcherMatch (truncMsg row) then
    some ⟨"Endpoint", "FILE_WATCHER_ADDED", "Info", "OK",
          recoveredTs row, recoveredTs row, String.mk (truncMsg row)⟩
  else
    match productsSearch (truncMsg row) with
    | some g =>
      some ⟨"Endpoint", "PRODUCT_COUNT", "Info", "Info",
            recoveredTs row, recoveredTs row,
            "No of products to be installed: " ++ String.mk g⟩
    | none =>
      match versionSearch (truncMsg row) with
      | some g =>
        some ⟨"Endpoint", "BUILD_VERSION", "Info", "Info",
              recoveredTs row, recoveredTs row,
              "Build Version: " ++ String.mk g⟩
      | none =>
        if specMatch (truncMsg row) then
          some ⟨"Endpoint", "SPECFILE_OK", "Info", "Info",
                recoveredTs row, recoveredTs row, String.mk (truncMsg row)⟩
        else
          match alarmSearch "raised".data (truncMsg row) with
          | some code =>
            some ⟨"TSMC", String.mk code, "Unknown", "Raised",
                  recoveredTs row, recoveredTs row, String.mk (truncMsg row)⟩
          | none =>
            match alarmSearch "terminated".data (truncMsg row) with
            | some code =>
              some ⟨"TSMC", String.mk code, "Unknown", "Terminated",
                    recoveredTs row, recoveredTs row, String.mk (truncMsg row)⟩
            | none =>
              if uncontrolledMatch (truncMsg row) then
                some ⟨"TSMC", "UNCONTROLLED_RESTART", "Critical", "Occurred",
                      recoveredTs row, recoveredTs row, String.mk (truncMsg row)⟩
              else if controlledMatch (truncMsg row) then
                some ⟨"TSMC", "CONTROLLED_RESTART", "Info", "Occurred",
                      recoveredTs row, recoveredTs row, String.mk (truncMsg row)⟩
              else
                match softwareSearch (truncMsg row) with
                | some code =>
                  some ⟨"TSMC", "SYS_ERR_" ++ String.mk code,
                        (if String.mk code ≠ "0" then "Critical" else "Warning"),
                        "Occurred",
                        recoveredTs row, recoveredTs row, String.mk (truncMsg row)⟩
                | none =>
                  match symbolSearch (truncMsg row) with
                  | some symb =>
                    some ⟨"Endpoint", "INSTALL_FAIL_" ++ String.mk symb,
                          "Critical", "Failed",
                          recoveredTs row, recoveredTs row, String.mk (truncMsg row)⟩
                  | none =>
                    if failedGenericMatch (truncMsg row) then
                      some ⟨(if hasSub "TSMC".data row.raw.data then "TSMC"
                             else "Endpoint"),
                            "FAILED_ACTION", "Warning", "Occurred",
                            recoveredTs row, recoveredTs row,
                            String.mk (truncMsg row)⟩
                    else none

/-- `extract_alarm_events` on a list of records: each row appends zero
or one event, in row order. -/
def extract_alarm_events (rows : List LogRecord) : List Event :=
  rows.filterMap classifyRow

/-! ### Helper lemmas -/

theorem mem_takeWhile_pred {p : Char → Bool} :
    ∀ {l : List Char} {a : Char}, a ∈ l.takeWhile p → p a = true := by
  intro l
  induction l with
  | nil => intro a h; cases h
  | cons b t ih =>
    intro a h
    rw [List.takeWhile_cons] at h
    by_cases hb : p b
    · rw [if_pos hb] at h
      rcases List.mem_cons.mp h with rfl | h2
      · exact hb
      · exact ih h2
    · rw [if_neg hb] at h; cases h

theorem dropWhile_dropWhile_eq (p : Char → Bool) (l : List Char) :
    (l.dropWhile p).dropWhile p = l.dropWhile p := by
  induction l with
  | nil => rfl
  | cons a t ih =>
    by_cases h : p a
    · simp [List.dropWhile_cons, h, ih]
    · simp [List.dropWhile_cons, h]

theorem rstripNl_idem (l : List Char) : rstripNl (rstripNl l) = rstripNl l := by
  unfold rstripNl
  rw [List.reverse_reverse, dropWhile_dropWhile_eq]

theorem parseStripped_raw (cs : List Char) : (parseStripped cs).raw = String.mk cs := by
  cases h : mcscriptMatch cs <;> simp [parseStripped, h]

theorem parseLine_idem (s : String) : parseLine ((parseLine s).raw) = parseLine s := by
  unfold parseLine
  rw [parseStripped_raw]
  show parseStripped (rstripNl (rstripNl s.data)) = _
  rw [rstripNl_idem]

theorem searchO_some {α : Type} {f : List Char → Option α} :
    ∀ {cs : List Char} {a : α}, searchO f cs = some a → ∃ l, f l = some a := by
  intro cs
  induction cs with
  | nil => intro a h; exact ⟨[], h⟩
  | cons c t ih =>
    intro a h
    cases hf : f (c :: t) with
    | some r =>
      rw [searchO, hf] at h
      exact ⟨c :: t, hf.trans h⟩
    | none =>
      rw [searchO, hf] at h
      exact ih h

theorem alarmAfter_code {tl l code : List Char} (h : alarmAfter tl l = some code) :
    (code.length = 3 ∨ code.length = 4) ∧ ∀ c ∈ code, isHexC c = true := by
  simp only [alarmAfter] at h
  repeat' split at h
  all_goals try exact Option.noConfusion h
  injection h with h'
  subst h'
  refine ⟨by assumption, fun c hc => mem_takeWhile_pred hc⟩

theorem alarmSearch_code {tl cs code : List Char} (h : alarmSearch tl cs = some code) :
    (code.length = 3 ∨ code.length = 4) ∧ ∀ c ∈ code, isHexC c = true := by
  obtain ⟨l, hl⟩ := searchO_some h
  unfold litThenO at hl
  split at hl
  · exact alarmAfter_code hl
  · exact Option.noConfusion hl

theorem mkString_ne_of_length {l : List Char} {s : String} (h : l.length ≠ s.data.length) :
    String.mk l ≠ s :=
  fun he => h (congrArg List.length (congrArg String.data he))

theorem classifyRow_dates {row : LogRecord} {e : Event}
    (he : classifyRow row = some e) :
    e.raiseDate = recoveredTs row ∧ e.terminatedDate = recoveredTs row := by
  unfold classifyRow at he
  repeat' split at he
  all_goals try exact Option.noConfusion he
  all_goals (injection he with h; subst h; exact ⟨rfl, rfl⟩)

/-! ### Shared concrete inputs for witnesses and counterexamples -/

/-- A minimal record as the fallback branch of the tokenizer would build
for plain chatter: no timestamp, no level, no thread, no component. -/
def chatter (m : String) : LogRecord :=
  ⟨none, none, none, none, m, m⟩

/-! ### Claims -/

/-- C2: Totality and order preservation of the tokenizer: for every
input list of lines of length N, `parse_log_file` returns exactly N
records, record `i` being the tokenization of line `i` (no line is
dropped, merged or reordered), and the `Raw` field of every record is
the (newline-stripped) input line. -/
theorem C2_tokenizer_totality (lines : List String) :
    (parse_log_file lines).length = lines.length ∧
    (∀ i : Nat, (parse_log_file lines)[i]? = (lines[i]?).map parseLine) ∧
    (∀ l : String, (parseLine l).raw = String.mk (rstripNl l.data)) :=
  ⟨List.length_map _ _, fun i => List.getElem?_map parseLine lines i,
    fun l => parseStripped_raw (rstripNl l.data)⟩

/-- C5: Raise/terminate equality invariant: every event emitted by the
classifier has `Raise Date` = `Terminated Date`, and both hold the
recovered timestamp of some source record (which is `none` exactly when
no timestamp was recovered for that record). -/
theorem C5_raise_terminated_equal {rows : List LogRecord} {e : Event}
    (he : e ∈ extract_alarm_events rows) :
    e.raiseDate = e.terminatedDate ∧ ∃ row ∈ rows, e.raiseDate = recoveredTs row := by
  rw [extract_alarm_events, List.mem_filterMap] at he
  obtain ⟨row, hrow, hcl⟩ := he
  obtain ⟨h1, h2⟩ := classifyRow_dates hcl
  exact ⟨h1.trans h2.symm, ⟨row, hrow, h1⟩⟩

theorem C5_witness :
    (⟨"TSMC", "UNCONTROLLED_RESTART", "Critical", "Occurred", none, none,
       "uncontrolled restart"⟩ : Event).raiseDate =
      (⟨"TSMC", "UNCONTROLLED_RESTART", "Critical", "Occurred", none, none,
        "uncontrolled restart"⟩ : Event).terminatedDate ∧
    ∃ row ∈ [chatter "uncontrolled restart"],
      (⟨"TSMC", "UNCONTROLLED_RESTART", "Critical", "Occurred", none, none,
        "uncontrolled restart"⟩ : Event).raiseDate = recoveredTs row :=
  @C5_raise_terminated_equal [chatter "uncontrolled restart"]
    ⟨"TSMC", "UNCONTROLLED_RESTART", "Critical", "Occurred", none, none,
      "uncontrolled restart"⟩ (by decide)

/-- C8: Idempotence of tokenization: re-tokenizing the `Raw` field of
any produced record as a single-line input yields a record with
identical `Message`, `Level`, `Component` and `Timestamp`. -/
theorem C8_tokenization_idempotent (s : String) :
    (parseLine ((parseLine s).raw)).message = (parseLine s).message ∧
    (parseLine ((parseLine s).raw)).level = (parseLine s).level ∧
    (parseLine ((parseLine s).raw)).component = (parseLine s).component ∧
    (parseLine ((parseLine s).raw)).timestamp = (parseLine s).timestamp := by
  rw [parseLine_idem]
  exact ⟨rfl, rfl, rfl, rfl⟩

/-- C10: Classifier timestamp fallback: for a record whose `Timestamp`
is absent, any emitted event carries `try_parse_datetime` of the
record's `Raw` text as its raise/terminated date, so the date can be
present even though the tokenized record's timestamp is absent. -/
theorem C10_classifier_ts_fallback {row : LogRecord} {e : Event}
    (hts : row.timestamp = none) (he : classifyRow row = some e) :
    e.raiseDate = tryParseDT row.raw.data ∧
    e.terminatedDate = tryParseDT row.raw.data := by
  obtain ⟨h1, h2⟩ := classifyRow_dates he
  simp only [recoveredTs, hts] at h1 h2
  exact ⟨h1, h2⟩

theorem C10_witness :
    ((⟨"TSMC", "UNCONTROLLED_RESTART", "Critical", "Occurred",
        some ⟨2025, 7, 31, 22, 40, 11, 0⟩, some ⟨2025, 7, 31, 22, 40, 11, 0⟩,
        "uncontrolled restart"⟩ : Event).raiseDate =
      tryParseDT (⟨none, none, none, none, "uncontrolled restart",
        ":/)20250731/22:40:11.103000/x"⟩ : LogRecord).raw.data ∧
     (⟨"TSMC", "UNCONTROLLED_RESTART", "Critical", "Occurred",
        some ⟨2025, 7, 31, 22, 40, 11, 0⟩, some ⟨2025, 7, 31, 22, 40, 11, 0⟩,
        "uncontrolled restart"⟩ : Event).terminatedDate =
      tryParseDT (⟨none, none, none, none, "uncontrolled restart",
        ":/)20250731/22:40:11.103000/x"⟩ : LogRecord).raw.data) ∧
    (⟨none, none, none, none, "uncontrolled restart",
      ":/)20250731/22:40:11.103000/x"⟩ : LogRecord).timestamp = none :=
  ⟨C10_classifier_ts_fallback (by decide) (by decide), by decide⟩

/-- The TSMC attempt of the fallback timestamp recovery, as the
specification words it: match the slash-delimited embedded form,
discard fractional seconds, parse as `YYYYMMDD HH:MM:SS`; a library
exception is "no result". -/
def tsmcRecoverS (cs : List Char) : Option DateTime :=
  match searchO tsmcAt cs with
  | some p => strptimeD p.1 (p.2.takeWhile (fun c => !(c == '.')))
  | none => none

/-- The ISO attempt of the fallback timestamp recovery, as the
specification words it: find a bare ISO-like substring anywhere and
hand it to the lenient parser; a library exception is "no result". -/
def isoRecoverS (cs : List Char) : Option DateTime :=
  match searchO isoAt cs with
  | some g => parseIsoTs g
  | none => none

theorem isoFallback_eq (cs : List Char) :
    tryParseDT.isoFallback cs = isoRecoverS cs := rfl

/-- C6: Fallback timestamp recovery order and error handling: the TSMC
slash-delimited form is tried first (fraction discarded, parsed as
`YYYYMMDD HH:MM:SS`), then the bare ISO substring; when neither
attempt yields a timestamp (including when the underlying date parser
raises, e.g. on a month of 13) the result is `none`, for every input
string — the function is total, so no exception reaches the caller.
The concrete conjuncts exercise the fraction-discarding TSMC path, the
caught-exception fall-through to the ISO path, and the no-timestamp
case. -/
theorem C6_fallback_recovery_order (s : String) :
    tryParseDT s.data = (tsmcRecoverS s.data).orElse (fun _ => isoRecoverS s.data) ∧
    tryParseDT "x /)20250731/22:40:11.103000/ y".data = some ⟨2025, 7, 31, 22, 40, 11, 0⟩ ∧
    tryParseDT "/)20251331/10:00:00/ then 2025-07-31 08:00:00".data =
      some ⟨2025, 7, 31, 8, 0, 0, 0⟩ ∧
    tryParseDT "no timestamp here".data = none := by
  refine ⟨?_, by decide, by decide, by decide⟩
  cases hd : s.data with
  | nil => rfl
  | cons c t =>
    rw [tryParseDT, tsmcRecoverS]
    cases h1 : searchO tsmcAt (c :: t) with
    | none => simp [h1, Option.orElse, isoFallback_eq]
    | some p =>
      cases h2 : strptimeD p.1 (p.2.takeWhile (fun c => !(c == '.'))) with
      | none => simp [h1, h2, Option.orElse, isoFallback_eq]
      | some dt => simp [h1, h2, Option.orElse]

/-- The variant substrings scanned for a severity letter by the
fallback heuristic. -/
def levelVariants (c : Char) : List (List Char) :=
  [['/', c, '/'], [' ', c, '/'], [' ', c, ' ']]

/-- First-hit-wins severity recovery as the specification words it:
walk the priority list `W`, `I`, `F`; the first letter one of whose
variant substrings occurs in the line wins; no hit leaves the level
unset. -/
def firstHitLevel (cs : List Char) : List Char → Option Char
  | [] => none
  | c :: rest =>
    if (levelVariants c).any (fun p => hasSub p cs) then some c
    else firstHitLevel cs rest

/-- Severity recovery specification: priority order `W`, `I`, `F`. -/
def levelHeuristicSpec (cs : List Char) : Option Char :=
  firstHitLevel cs ['W', 'I', 'F']

/-- C7: Fallback severity recovery: for every line not matching the
structured McScript pattern, the tokenizer's `Level` is the
first-hit-wins scan of the variants `/W/`, ` W/`, ` W ` then the `I`
variants then the `F` variants, and absent when none occurs. -/
theorem C7_fallback_severity (s : String)
    (h : mcscriptMatch (rstripNl s.data) = none) :
    (parseLine s).level = levelHeuristicSpec (rstripNl s.data) := by
  unfold parseLine parseStripped
  rw [h]
  show fallbackLevel (rstripNl s.data) = _
  generalize rstripNl s.data = cs
  simp only [fallbackLevel, levelHeuristicSpec, firstHitLevel, levelVariants,
    List.any_cons, List.any_nil, Bool.or_false, Bool.or_assoc]

theorem C7_witness :
    mcscriptMatch (rstripNl "tsmc W chatter".data) = none ∧
    (parseLine "tsmc W chatter").level = levelHeuristicSpec (rstripNl "tsmc W chatter".data) ∧
    (parseLine "tsmc W chatter").level = some 'W' :=
  ⟨by decide, C7_fallback_severity "tsmc W chatter" (by decide), by decide⟩

/-- C9: Implicit alarm-code width restriction: the alarm raised /
terminated patterns only ever capture a code of exactly 3 or 4
hexadecimal digits, and messages like `Alarm 12345 has been raised` or
`Alarm XYZ has been raised` match neither pattern and yield no event at
all from the classifier. -/
theorem C9_alarm_code_width :
    (∀ tl cs code : List Char, alarmSearch tl cs = some code →
      (code.length = 3 ∨ code.length = 4) ∧ ∀ c ∈ code, isHexC c = true) ∧
    alarmSearch "raised".data "Alarm 12345 has been raised".data = none ∧
    alarmSearch "raised".data "Alarm XYZ has been raised".data = none ∧
    alarmSearch "terminated".data "Alarm 12345 has been terminated".data = none ∧
    extract_alarm_events [chatter "Alarm 12345 has been raised"] = [] ∧
    extract_alarm_events [chatter "Alarm XYZ has been raised"] = [] :=
  ⟨fun _ _ _ h => alarmSearch_code h, by decide, by decide, by decide,
    by decide, by decide⟩

theorem C9_witness :
    alarmSearch "raised".data "see Alarm 0A1 has been raised".data = some "0A1".data ∧
    (("0A1".data.length = 3 ∨ "0A1".data.length = 4) ∧
      ∀ c ∈ "0A1".data, isHexC c = true) :=
  ⟨by decide,
    C9_alarm_code_width.1 "raised".data "see Alarm 0A1 has been raised".data
      "0A1".data (by decide)⟩

/-- C3 counterexample: the message `start` matches the case-insensitive
word-boundary START pattern and does not match rule 1, yet the
classifier emits no event at all, because the source additionally
requires the case-sensitive substring `START` before emitting
SCRIPT_START. -/
theorem C3_counterexample :
    startMarkerMatch "start".data = true ∧
    installRunMatch "start".data = false ∧
    hasSub "START".data "start".data = false ∧
    extract_alarm_events [chatter "start"] = [] :=
  ⟨by decide, by decide, by decide, by decide⟩

/-- C3 (amended): for every record not matching rule 1 whose message
matches the word-boundary START pattern case-insensitively AND contains
the literal upper-case substring `START`, the classifier emits the
SCRIPT_START event (Endpoint / Info / Started). -/
theorem C3_amended {row : LogRecord}
    (h1 : installRunMatch (truncMsg row) = false)
    (h2 : startMarkerMatch (truncMsg row) = true)
    (h3 : hasSub "START".data (truncMsg row) = true) :
    classifyRow row = some ⟨"Endpoint", "SCRIPT_START", "Info", "Started",
      recoveredTs row, recoveredTs row, String.mk (truncMsg row)⟩ := by
  simp [classifyRow, h1, h2, h3]

theorem C3_amended_witness :
    classifyRow (chatter "START deploy") =
      some ⟨"Endpoint", "SCRIPT_START", "Info", "Started",
        recoveredTs (chatter "START deploy"), recoveredTs (chatter "START deploy"),
        String.mk (truncMsg (chatter "START deploy"))⟩ :=
  C3_amended (by decide) (by decide) (by decide)

/-- The C1 counterexample message: it matches rule 3 (key imported),
rule 9 (alarm raised) and rule 15 (generic failure) simultaneously. -/
def c1msg : String := "Key imported successfully; Failed to ack Alarm 0A1 has been raised"

/-- C1 counterexample: a message matching both the rule-9 pattern and
the rule-15 pattern, for which the classifier emits one event carrying
rule 3's fields (KEY_IMPORTED / OK / Info), not rule 9's, because the
ordered chain lets any earlier rule preempt rule 9. -/
theorem C1_counterexample :
    (alarmSearch "raised".data c1msg.data).isSome = true ∧
    failedGenericMatch c1msg.data = true ∧
    extract_alarm_events [chatter c1msg] =
      [⟨"Endpoint", "KEY_IMPORTED", "Info", "OK", none, none, c1msg⟩] ∧
    ("OK" : String) ≠ "Raised" ∧ ("Info" : String) ≠ "Unknown" :=
  ⟨by decide, by decide, by decide, by decide, by decide⟩

/-- C1 (amended): for every record whose message matches both the
rule-9 pattern and the rule-15 generic-failure pattern and matches none
of rules 1-8, the classifier emits exactly one event carrying rule 9's
fields (Device Name TSMC, Alarm Name the captured hex code, Severity
Unknown, Status Raised) and none of rule 15's fields (in particular the
alarm name is never FAILED_ACTION). -/
theorem C1_amended {row : LogRecord} {code : List Char}
    (h9 : alarmSearch "raised".data (truncMsg row) = some code)
    (_h15 : failedGenericMatch (truncMsg row) = true)
    (h1 : installRunMatch (truncMsg row) = false)
    (h2 : (startMarkerMatch (truncMsg row) && hasSub "START".data (truncMsg row)) = false)
    (h3 : keyImportedMatch (truncMsg row) = false)
    (h4 : msgbusMatch (truncMsg row) = false)
    (h5 : watcherMatch (truncMsg row) = false)
    (h6 : productsSearch (truncMsg row) = none)
    (h7 : versionSearch (truncMsg row) = none)
    (h8 : specMatch (truncMsg row) = false) :
    extract_alarm_events [row] =
      [⟨"TSMC", String.mk code, "Unknown", "Raised",
        recoveredTs row, recoveredTs row, String.mk (truncMsg row)⟩] ∧
    String.mk code ≠ "FAILED_ACTION" := by
  have hcl : classifyRow row = some ⟨"TSMC", String.mk code, "Unknown", "Raised",
      recoveredTs row, recoveredTs row, String.mk (truncMsg row)⟩ := by
    simp [classifyRow, h1, h2, h3, h4, h5, h6, h7, h8, h9]
  refine ⟨?_, mkString_ne_of_length ?_⟩
  · simp [extract_alarm_events, List.filterMap_cons, hcl]
  · rcases (alarmSearch_code h9).1 with h | h <;> rw [h] <;> decide

/-- The C1 witness message: rule 9 and rule 15 both match, rules 1-8
do not. -/
def c1wmsg : String := "Failed to handle: Alarm 0a1 has been raised"

theorem C1_amended_witness :
    extract_alarm_events [chatter c1wmsg] =
      [⟨"TSMC", String.mk "0a1".data, "Unknown", "Raised",
        recoveredTs (chatter c1wmsg), recoveredTs (chatter c1wmsg),
        String.mk (truncMsg (chatter c1wmsg))⟩] ∧
    String.mk "0a1".data ≠ "FAILED_ACTION" :=
  C1_amended (by decide) (by decide) (by decide) (by decide) (by decide)
    (by decide) (by decide) (by decide) (by decide) (by decide)

/-- Rule-13 input for the C4 counterexample. -/
def c4a : String := "Software error. System error 5"

/-- Second rule-13 input with the same captured group but different
surrounding text. -/
def c4b : String := "seen: Software error. System error 5"

/-- Rule-14 input for the C4 counterexample. -/
def c4c : String := "Could not find symbol for dereferencing libfoo"

/-- Rule-8 input for the C4 counterexample. -/
def c4d : String := "getting spec file from policy successfully"

/-- C4 counterexample: records matched by rules 13, 14 and 8 keep their
message text unchanged — two rule-13 records with the same captured
group `5` emit events with two different messages (each equal to its
own input), so the emitted message is not a string synthesized from the
captured group, contradicting the claim that rules 8, 13 and 14
rewrite the message. -/
theorem C4_counterexample :
    extract_alarm_events [chatter c4a] =
      [⟨"TSMC", "SYS_ERR_5", "Critical", "Occurred", none, none, c4a⟩] ∧
    extract_alarm_events [chatter c4b] =
      [⟨"TSMC", "SYS_ERR_5", "Critical", "Occurred", none, none, c4b⟩] ∧
    extract_alarm_events [chatter c4c] =
      [⟨"Endpoint", "INSTALL_FAIL_libfoo", "Critical", "Failed", none, none, c4c⟩] ∧
    extract_alarm_events [chatter c4d] =
      [⟨"Endpoint", "SPECFILE_OK", "Info", "Info", none, none, c4d⟩] ∧
    c4a ≠ c4b :=
  ⟨by decide, by decide, by decide, by decide, by decide⟩

/-- C4 (amended): only rules 6 and 7 rewrite the emitted message, to
`No of products to be installed: <N>` and `Build Version: <X>`
respectively; every event of any other rule, including rules 8, 13 and
14, carries the matched (truncated) message text unchanged. -/
theorem C4_amended {row : LogRecord} {e : Event} (he : classifyRow row = some e) :
    ((e.alarmName ≠ "PRODUCT_COUNT" ∧ e.alarmName ≠ "BUILD_VERSION") →
      e.message = String.mk (truncMsg row)) ∧
    (∀ g, productsSearch (truncMsg row) = some g →
      installRunMatch (truncMsg row) = false →
      (startMarkerMatch (truncMsg row) && hasSub "START".data (truncMsg row)) = false →
      keyImportedMatch (truncMsg row) = false →
      msgbusMatch (truncMsg row) = false →
      watcherMatch (truncMsg row) = false →
      e.alarmName = "PRODUCT_COUNT" ∧
      e.message = "No of products to be installed: " ++ String.mk g) ∧
    (∀ g, versionSearch (truncMsg row) = some g →
      productsSearch (truncMsg row) = none →
      installRunMatch (truncMsg row) = false →
      (startMarkerMatch (truncMsg row) && hasSub "START".data (truncMsg row)) = false →
      keyImportedMatch (truncMsg row) = false →
      msgbusMatch (truncMsg row) = false →
      watcherMatch (truncMsg row) = false →
      e.alarmName = "BUILD_VERSION" ∧
      e.message = "Build Version: " ++ String.mk g) := by
  refine ⟨?_, ?_, ?_⟩
  · intro hne
    unfold classifyRow at he
    repeat' split at he
    all_goals try exact Option.noConfusion he
    all_goals (injection he with h; subst h)
    all_goals first
      | rfl
      | exact absurd rfl hne.1
      | exact absurd rfl hne.2
  · intro g hg k1 k2 k3 k4 k5
    have hcl : classifyRow row = some ⟨"Endpoint", "PRODUCT_COUNT", "Info", "Info",
        recoveredTs row, recoveredTs row,
        "No of products to be installed: " ++ String.mk g⟩ := by
      simp [classifyRow, k1, k2, k3, k4, k5, hg]
    rw [he] at hcl
    injection hcl with h
    rw [h]
    exact ⟨rfl, rfl⟩
  · intro g hg hp k1 k2 k3 k4 k5
    have hcl : classifyRow row = some ⟨"Endpoint", "BUILD_VERSION", "Info", "Info",
        recoveredTs row, recoveredTs row,
        "Build Version: " ++ String.mk g⟩ := by
      simp [classifyRow, k1, k2, k3, k4, k5, hp, hg]
    rw [he] at hcl
    injection hcl with h
    rw [h]
    exact ⟨rfl, rfl⟩

theorem C4_amended_witness :
    ((⟨"Endpoint", "PRODUCT_COUNT", "Info", "Info", none, none,
        "No of products to be installed: 7"⟩ : Event).alarmName = "PRODUCT_COUNT" ∧
     (⟨"Endpoint", "PRODUCT_COUNT", "Info", "Info", none, none,
        "No of products to be installed: 7"⟩ : Event).message =
       "No of products to be installed: " ++ String.mk "7".data) :=
  (@C4_amended (chatter "No of products to be installed 7")
      ⟨"Endpoint", "PRODUCT_COUNT", "Info", "Info", none, none,
        "No of products to be installed: 7"⟩ (by decide)).2.1
    "7".data (by decide) (by decide) (by decide) (by decide) (by decide) (by decide)
